import Mathlib

/-!
Verification development for the drone real-time scheduling harness
(`work_dir/udp_test_receiver.cpp`, with the monitor variant of
`work_dir/data_collector.cpp`).

Modelling conventions:
* C++ `float` arithmetic is embedded as exact rational arithmetic (`ℚ`);
  the float literals 0.01f, 9.81f, 0.25f, 0.005f are taken at their
  decimal values.  The properties proved here (sign, clamping, interval
  membership with slack) are robust to this abstraction.
* C++ `long` counters are embedded as `Int`, with the C++ truncating
  division written `Int.tdiv`.
* Steady-clock instants are embedded as integer timestamps.
* The loop structure of each task is embedded as a pure step function;
  where a claim is about actions rather than values (idle sleeps, lock
  scoping), the step additionally emits the sequence of actions the body
  performs, read off the source line by line.
-/

/-- Shared drone state (`struct DroneState` of `udp_test_receiver.cpp`):
control inputs, derived physical quantities and the emergency flag.  The
mutex and condition variable of the C++ struct serialize access; every
critical section of the source appears below as one pure function on this
structure. -/
structure DroneState where
  throttle : ℚ
  pitch : ℚ
  roll : ℚ
  yaw : ℚ
  altitude : ℚ
  velocity : ℚ
  emergency_triggered : Bool
deriving DecidableEq, Repr

/-- Zero-initialized drone state, as at process start. -/
def initState : DroneState :=
  { throttle := 0, pitch := 0, roll := 0, yaw := 0
    altitude := 0, velocity := 0, emergency_triggered := false }

/-- The flight-loop time step `dt = 0.01f` (10 ms at 100 Hz). -/
def dt : ℚ := 1 / 100

/-- Gravity constant `9.81f` of `task_flight`. -/
def gravity : ℚ := 981 / 100

/-- Throttle-to-lift gain `0.25f` of `task_flight`. -/
def lift_gain : ℚ := 1 / 4

/-- Tilt penalty coefficient `0.005f` of `task_flight`. -/
def tilt_coeff : ℚ := 1 / 200

/-- Tilt attenuation factor of `task_flight`:
`1.0f - (abs(pitch) + abs(roll)) * 0.005f`.  The formula itself is
unclamped. -/
def tilt_factor (s : DroneState) : ℚ :=
  1 - (|s.pitch| + |s.roll|) * tilt_coeff

/-- Candidate velocity computed by the integration step of `task_flight`
before the ground clamp: `velocity + ((throttle*0.25)*tilt_factor - 9.81)*dt`. -/
def raw_velocity (s : DroneState) : ℚ :=
  s.velocity + (s.throttle * lift_gain * tilt_factor s - gravity) * dt

/-- Candidate altitude computed by the integration step of `task_flight`
before the ground clamp: `altitude + new_velocity * dt`. -/
def raw_altitude (s : DroneState) : ℚ :=
  s.altitude + raw_velocity s * dt

/-- The physics integration of `task_flight` (lines 145-156 of
`udp_test_receiver.cpp`): velocity and altitude are advanced by Euler
integration and altitude is clamped to 0, zeroing velocity on ground
contact. -/
def integrate (s : DroneState) : DroneState :=
  if raw_altitude s < 0 then
    { s with altitude := 0, velocity := 0 }
  else
    { s with altitude := raw_altitude s, velocity := raw_velocity s }

/-- The emergency gate at the top of the flight critical section
(lines 139-143): when the emergency flag is set, throttle, pitch and roll
are zeroed in place. -/
def emergency_zeroed (s : DroneState) : DroneState :=
  if s.emergency_triggered then { s with throttle := 0, pitch := 0, roll := 0 }
  else s

/-- The full flight-cycle critical section of `task_flight`
(lines 136-157): the emergency gate followed by the integration step.
Note the source has no `else` around the integration: it always runs. -/
def flight_critical (s : DroneState) : DroneState :=
  integrate (emergency_zeroed s)

/-- The eight command tokens recognized by `task_networking`. -/
def command_tokens : List String :=
  ["PANIC", "UP", "DOWN", "FRONT", "BACK", "LEFT", "RIGHT", "STOP"]

/-- The command-dispatch chain of `task_networking` (lines 268-297 of
`udp_test_receiver.cpp`), restricted to its effect on `DroneState`:
an exact, case-sensitive `if`/`else if` chain on the received string;
unmatched tokens fall through with no effect. -/
def handle_command (cmd : String) (s : DroneState) : DroneState :=
  if cmd = "PANIC" then { s with emergency_triggered := true }
  else if cmd = "UP" then { s with throttle := min 100 (s.throttle + 10) }
  else if cmd = "DOWN" then { s with throttle := max 0 (s.throttle - 10) }
  else if cmd = "FRONT" then { s with pitch := 15 }
  else if cmd = "BACK" then { s with pitch := -15 }
  else if cmd = "LEFT" then { s with roll := -15 }
  else if cmd = "RIGHT" then { s with roll := 15 }
  else if cmd = "STOP" then { s with pitch := 0, roll := 0 }
  else s

/-- The motor-kill critical section of `cleanup_and_exit` (lines 70-76):
throttle, pitch, roll and yaw are zeroed. -/
def cleanup_motors (s : DroneState) : DroneState :=
  { s with throttle := 0, pitch := 0, roll := 0, yaw := 0 }

/-- One state-mutating critical section of some task: a command handled by
the networking task, one flight-cycle critical section, or the motor kill
of the shutdown sequence. -/
inductive Op
  | net (cmd : String)
  | flight
  | cleanup
deriving DecidableEq, Repr

/-- Effect of one critical section on the shared drone state. -/
def applyOp : Op → DroneState → DroneState
  | .net cmd, s => handle_command cmd s
  | .flight, s => flight_critical s
  | .cleanup, s => cleanup_motors s

/-- A run of the system: critical sections execute one at a time
(serialized by `state_mutex`), in some interleaving order. -/
def run (ops : List Op) (s : DroneState) : DroneState :=
  ops.foldl (fun t o => applyOp o t) s

/-- Profiler registry (`struct SystemStats` of `udp_test_receiver.cpp`).
All fields are C++ `long` counters except the textual emergency status. -/
structure SystemStats where
  flight_loops : Int
  flight_exec_avg_us : Int
  flight_preempts : Int
  flight_deadline_misses : Int
  net_packets : Int
  net_preempts : Int
  vision_fps : Int
  vision_preempts : Int
  vision_active : Bool
  emergency_status : String
deriving DecidableEq, Repr

/-- Zero-initialized stats registry, as at process start. -/
def initStats : SystemStats :=
  { flight_loops := 0, flight_exec_avg_us := 0, flight_preempts := 0
    flight_deadline_misses := 0, net_packets := 0, net_preempts := 0
    vision_fps := 0, vision_preempts := 0, vision_active := false
    emergency_status := "STANDBY" }

/-- The stats critical section at the end of each flight cycle
(lines 163-168): increment the loop counter, fold the measured duration
into the rolling average with the C++ `long` division
`(avg + dur) / 2`, and store the sampled preemption count. -/
def flight_stats_update (st : SystemStats) (dur preempts : Int) : SystemStats :=
  { st with
    flight_loops := st.flight_loops + 1
    flight_exec_avg_us := (st.flight_exec_avg_us + dur).tdiv 2
    flight_preempts := preempts }

/-- Deadline bookkeeping of `task_flight` (lines 123-132): the absolute
next wake time (`next_wake`, in milliseconds of steady-clock time) and the
accumulated deadline-miss counter. -/
structure FlightTiming where
  next_wake : Int
  misses : Int
deriving DecidableEq, Repr

/-- The fixed flight period: `next_wake += std::chrono::milliseconds(10)`. -/
def flight_period_ms : Int := 10

/-- The timing step at the top of each flight cycle (lines 127-132):
advance the absolute deadline by one period, then record a miss exactly
when the current time already exceeds the new deadline. -/
def flight_timing_step (now : Int) (t : FlightTiming) : FlightTiming :=
  { next_wake := t.next_wake + flight_period_ms
    misses :=
      if t.next_wake + flight_period_ms < now then t.misses + 1 else t.misses }

/-- Actions visibly performed by one iteration of the networking receive
loop, in order. -/
inductive NetAction
  | handled (cmd : String)
  | idle_sleep
deriving DecidableEq, Repr

/-- One iteration of the `task_networking` receive loop (lines 250-304):
the non-blocking `recvfrom` either yields a datagram (`some cmd`), which
is dispatched under the state lock, or nothing (`none`); in BOTH cases the
iteration ends with `sleep_for(10ms)` — the sleep is outside the
`if (n > 0)` in the source.  Returns the new drone state and the ordered
list of actions the iteration performed. -/
def networking_iter (poll : Option String) (s : DroneState) :
    DroneState × List NetAction :=
  match poll with
  | some cmd => (handle_command cmd s, [NetAction.handled cmd, NetAction.idle_sleep])
  | none => (s, [NetAction.idle_sleep])

/-- Process-level state: the shared drone state plus the terminated flag
(`std::exit(0)` at the end of `cleanup_and_exit` makes termination
absorbing). -/
structure ProcState where
  drone : DroneState
  terminated : Bool
deriving DecidableEq, Repr

/-- Process-level events: an ordinary critical section, or the Emergency
Task waking and running the shutdown sequence `cleanup_and_exit`. -/
inductive ProcEv
  | act (o : Op)
  | shutdown
deriving DecidableEq, Repr

/-- Process-level semantics: once terminated nothing further executes;
the shutdown event kills the motors and terminates the process
(`cleanup_and_exit` ends in `std::exit(0)`). -/
def applyEv : ProcEv → ProcState → ProcState
  | .act o, p =>
      if p.terminated then p else { p with drone := applyOp o p.drone }
  | .shutdown, p =>
      if p.terminated then p
      else { drone := cleanup_motors p.drone, terminated := true }

/-- Number of times the shutdown sequence actually runs along a trace of
process events: a `shutdown` event counts only when the process is not yet
terminated when it fires. -/
def shutdownRuns : List ProcEv → ProcState → Nat
  | [], _ => 0
  | ProcEv.act o :: tr, p => shutdownRuns tr (applyEv (ProcEv.act o) p)
  | ProcEv.shutdown :: tr, p =>
      (if p.terminated then 0 else 1) + shutdownRuns tr (applyEv ProcEv.shutdown p)

/-- The fields read out by the monitor of `udp_test_receiver.cpp`
(lines 338-358), in source order. -/
structure MonitorRow where
  f_time : Int
  f_miss : Int
  f_pre : Int
  n_pack : Int
  n_pre : Int
  v_fps : Int
  v_pre : Int
  emerg : String
  alt : ℚ
  thr : ℚ
deriving DecidableEq, Repr

/-- One interval of `task_monitor` in `udp_test_receiver.cpp`
(lines 335-367): under the stats lock it snapshots the seven counters and
the emergency status and zeroes the per-interval packet counter; under the
state lock (taken afterwards, separately) it reads altitude and throttle.
It writes nothing else.  Returns the updated registries and the rendered
row. -/
def monitor_cycle (st : SystemStats) (ds : DroneState) :
    SystemStats × DroneState × MonitorRow :=
  ({ st with net_packets := 0 },
   ds,
   { f_time := st.flight_exec_avg_us, f_miss := st.flight_deadline_misses
     f_pre := st.flight_preempts, n_pack := st.net_packets
     n_pre := st.net_preempts, v_fps := st.vision_fps
     v_pre := st.vision_preempts, emerg := st.emergency_status
     alt := ds.altitude, thr := ds.throttle })

/-- Profiler registry of `data_collector.cpp` (its `struct SystemStats`):
same as the receiver variant but with a per-interval frame counter
`vision_frames` in place of `vision_fps` and no `vision_active` flag. -/
structure DCStats where
  flight_loops : Int
  flight_exec_avg_us : Int
  flight_preempts : Int
  flight_deadline_misses : Int
  net_packets : Int
  net_preempts : Int
  vision_frames : Int
  vision_preempts : Int
  emergency_status : String
deriving DecidableEq, Repr

/-- One interval of `task_monitor` in `data_collector.cpp`
(lines 381-400): under the stats lock it snapshots the counters and zeroes
BOTH per-interval rate counters, `vision_frames` and `net_packets`; it
touches no other registry (it never takes the state lock). -/
def dc_monitor_cycle (st : DCStats) : DCStats :=
  { st with vision_frames := 0, net_packets := 0 }

/-- Lock events, used to check the locking discipline of a task body. -/
inductive LockEv
  | acqStats
  | relStats
  | acqState
  | relState
deriving DecidableEq, Repr

/-- Scan a sequence of lock events from a given held-set `(stats, state)`
and report whether both locks are ever held at once. -/
def lockScan : List LockEv → Bool × Bool → Bool
  | [], _ => false
  | e :: rest, held =>
      let held2 : Bool × Bool :=
        match e with
        | LockEv.acqStats => (true, held.2)
        | LockEv.relStats => (false, held.2)
        | LockEv.acqState => (held.1, true)
        | LockEv.relState => (held.1, false)
      (held2.1 && held2.2) || lockScan rest held2

/-- Whether a lock-event sequence ever holds the stats and state locks
simultaneously, starting from no lock held. -/
def bothEverHeld (tr : List LockEv) : Bool := lockScan tr (false, false)

/-- The lock events of one monitor interval in `udp_test_receiver.cpp`:
the stats-lock scope (lines 342-353) closes before the state-lock scope
(lines 354-358) opens. -/
def monitor_lock_seq : List LockEv :=
  [LockEv.acqStats, LockEv.relStats, LockEv.acqState, LockEv.relState]

/-- The lock events of one monitor interval in `data_collector.cpp`:
only the stats lock is ever taken (lines 387-400). -/
def dc_monitor_lock_seq : List LockEv :=
  [LockEv.acqStats, LockEv.relStats]

/-- The throttle range invariant: throttle stays in [0, 100]. -/
def throttle_ok (s : DroneState) : Prop :=
  0 ≤ s.throttle ∧ s.throttle ≤ 100

/-- The attitude invariant: pitch and roll only ever take the values
-15, 0 or 15 through the command interface. -/
def attitude_ok (s : DroneState) : Prop :=
  (s.pitch = -15 ∨ s.pitch = 0 ∨ s.pitch = 15) ∧
  (s.roll = -15 ∨ s.roll = 0 ∨ s.roll = 15)

/- Helper lemmas. -/

lemma integrate_throttle (s : DroneState) : (integrate s).throttle = s.throttle := by
  unfold integrate; split <;> rfl

lemma integrate_pitch (s : DroneState) : (integrate s).pitch = s.pitch := by
  unfold integrate; split <;> rfl

lemma integrate_roll (s : DroneState) : (integrate s).roll = s.roll := by
  unfold integrate; split <;> rfl

lemma integrate_emergency (s : DroneState) :
    (integrate s).emergency_triggered = s.emergency_triggered := by
  unfold integrate; split <;> rfl

lemma integrate_altitude_nonneg (s : DroneState) : 0 ≤ (integrate s).altitude := by
  unfold integrate
  split_ifs with h
  · simp
  · simpa using le_of_not_lt h

lemma emergency_zeroed_emergency (s : DroneState) :
    (emergency_zeroed s).emergency_triggered = s.emergency_triggered := by
  unfold emergency_zeroed; split <;> rfl

lemma flight_critical_throttle (s : DroneState) :
    (flight_critical s).throttle = if s.emergency_triggered then 0 else s.throttle := by
  unfold flight_critical emergency_zeroed
  split <;> rw [integrate_throttle]

lemma flight_critical_pitch (s : DroneState) :
    (flight_critical s).pitch = if s.emergency_triggered then 0 else s.pitch := by
  unfold flight_critical emergency_zeroed
  split <;> rw [integrate_pitch]

lemma flight_critical_roll (s : DroneState) :
    (flight_critical s).roll = if s.emergency_triggered then 0 else s.roll := by
  unfold flight_critical emergency_zeroed
  split <;> rw [integrate_roll]

lemma flight_critical_emergency (s : DroneState) :
    (flight_critical s).emergency_triggered = s.emergency_triggered := by
  unfold flight_critical
  rw [integrate_emergency, emergency_zeroed_emergency]

lemma flight_critical_altitude_nonneg (s : DroneState) :
    0 ≤ (flight_critical s).altitude :=
  integrate_altitude_nonneg (emergency_zeroed s)

lemma handle_command_throttle (cmd : String) (s : DroneState) :
    (handle_command cmd s).throttle = s.throttle ∨
    (handle_command cmd s).throttle = min 100 (s.throttle + 10) ∨
    (handle_command cmd s).throttle = max 0 (s.throttle - 10) := by
  unfold handle_command; split_ifs <;> simp

lemma handle_command_pitch (cmd : String) (s : DroneState) :
    (handle_command cmd s).pitch = s.pitch ∨ (handle_command cmd s).pitch = 15 ∨
    (handle_command cmd s).pitch = -15 ∨ (handle_command cmd s).pitch = 0 := by
  unfold handle_command; split_ifs <;> simp

lemma handle_command_roll (cmd : String) (s : DroneState) :
    (handle_command cmd s).roll = s.roll ∨ (handle_command cmd s).roll = 15 ∨
    (handle_command cmd s).roll = -15 ∨ (handle_command cmd s).roll = 0 := by
  unfold handle_command; split_ifs <;> simp

lemma handle_command_altitude (cmd : String) (s : DroneState) :
    (handle_command cmd s).altitude = s.altitude := by
  unfold handle_command; split_ifs <;> rfl

lemma handle_command_emergency_mono (cmd : String) (s : DroneState)
    (h : s.emergency_triggered = true) :
    (handle_command cmd s).emergency_triggered = true := by
  unfold handle_command; split_ifs <;> simp_all

lemma throttle_ok_applyOp (o : Op) (s : DroneState) (h : throttle_ok s) :
    throttle_ok (applyOp o s) := by
  obtain ⟨h0, h1⟩ := h
  cases o with
  | net cmd =>
    refine ⟨?_, ?_⟩
    · show 0 ≤ (handle_command cmd s).throttle
      rcases handle_command_throttle cmd s with he | he | he <;> rw [he]
      · exact h0
      · exact le_min (by norm_num) (by linarith)
      · exact le_max_left _ _
    · show (handle_command cmd s).throttle ≤ 100
      rcases handle_command_throttle cmd s with he | he | he <;> rw [he]
      · exact h1
      · exact min_le_left _ _
      · exact max_le (by norm_num) (by linarith)
  | flight =>
    refine ⟨?_, ?_⟩
    · show 0 ≤ (flight_critical s).throttle
      rw [flight_critical_throttle]
      split
      · norm_num
      · exact h0
    · show (flight_critical s).throttle ≤ 100
      rw [flight_critical_throttle]
      split
      · norm_num
      · exact h1
  | cleanup =>
    refine ⟨?_, ?_⟩
    · show (0 : ℚ) ≤ (cleanup_motors s).throttle
      norm_num [cleanup_motors]
    · show (cleanup_motors s).throttle ≤ 100
      norm_num [cleanup_motors]

lemma attitude_ok_applyOp (o : Op) (s : DroneState) (h : attitude_ok s) :
    attitude_ok (applyOp o s) := by
  obtain ⟨hp, hr⟩ := h
  cases o with
  | net cmd =>
    constructor
    · rcases handle_command_pitch cmd s with he | he | he | he <;> rw [applyOp, he] <;> tauto
    · rcases handle_command_roll cmd s with he | he | he | he <;> rw [applyOp, he] <;> tauto
  | flight =>
    constructor
    · rw [applyOp, flight_critical_pitch]; split <;> tauto
    · rw [applyOp, flight_critical_roll]; split <;> tauto
  | cleanup => exact ⟨Or.inr (Or.inl rfl), Or.inr (Or.inl rfl)⟩

lemma altitude_nonneg_applyOp (o : Op) (s : DroneState) (h : 0 ≤ s.altitude) :
    0 ≤ (applyOp o s).altitude := by
  cases o with
  | net cmd => rw [applyOp, handle_command_altitude]; exact h
  | flight => exact flight_critical_altitude_nonneg s
  | cleanup => exact h

lemma emergency_mono_applyOp (o : Op) (s : DroneState)
    (h : s.emergency_triggered = true) :
    (applyOp o s).emergency_triggered = true := by
  cases o with
  | net cmd => exact handle_command_emergency_mono cmd s h
  | flight => rw [applyOp, flight_critical_emergency]; exact h
  | cleanup => exact h

lemma run_preserves (P : DroneState → Prop)
    (hP : ∀ (o : Op) (s : DroneState), P s → P (applyOp o s)) :
    ∀ (ops : List Op) (s : DroneState), P s → P (run ops s) := by
  intro ops
  induction ops with
  | nil => intro s h; exact h
  | cons o tl ih => intro s h; exact ih _ (hP o s h)

lemma tilt_factor_of_attitude (s : DroneState) (h : attitude_ok s) :
    17 / 20 ≤ tilt_factor s ∧ tilt_factor s ≤ 1 := by
  obtain ⟨hp, hr⟩ := h
  unfold tilt_factor tilt_coeff
  rcases hp with h1 | h1 | h1 <;> rcases hr with h2 | h2 | h2 <;>
    rw [h1, h2] <;> norm_num

lemma applyEv_terminated_mono (e : ProcEv) (p : ProcState)
    (h : p.terminated = true) : (applyEv e p).terminated = true := by
  cases e <;> simp [applyEv, h]

lemma shutdownRuns_of_terminated :
    ∀ (tr : List ProcEv) (p : ProcState), p.terminated = true →
      shutdownRuns tr p = 0 := by
  intro tr
  induction tr with
  | nil => intro p _; rfl
  | cons e tl ih =>
    intro p h
    cases e with
    | act o =>
      rw [shutdownRuns]
      exact ih _ (applyEv_terminated_mono _ _ h)
    | shutdown =>
      rw [shutdownRuns]
      rw [if_pos h, ih _ (applyEv_terminated_mono _ _ h)]

lemma shutdownRuns_le_one :
    ∀ (tr : List ProcEv) (p : ProcState), shutdownRuns tr p ≤ 1 := by
  intro tr
  induction tr with
  | nil => intro p; exact Nat.zero_le 1
  | cons e tl ih =>
    intro p
    cases e with
    | act o => rw [shutdownRuns]; exact ih _
    | shutdown =>
      rw [shutdownRuns]
      by_cases h : p.terminated = true
      · rw [if_pos h]; simpa using ih _
      · have hb : p.terminated = false := by
          cases hp : p.terminated
          · rfl
          · exact absurd hp h
        have ht : (applyEv ProcEv.shutdown p).terminated = true := by
          simp [applyEv, hb]
        rw [if_neg h, shutdownRuns_of_terminated _ _ ht]

lemma up_iterate_throttle_le (n : ℕ) :
    ((handle_command "UP")^[n] initState).throttle ≤ 100 := by
  induction n with
  | zero => norm_num [initState]
  | succ k ih =>
    rw [Function.iterate_succ_apply']
    rcases handle_command_throttle "UP" ((handle_command "UP")^[k] initState)
      with he | he | he <;> rw [he]
    · exact ih
    · exact min_le_left _ _
    · exact max_le (by norm_num) (by linarith)

/-- A state in which the drone hovers at altitude 10 with the emergency
flag already raised; used to exercise the emergency branch of the flight
cycle. -/
def hover_emergency_state : DroneState :=
  { throttle := 50, pitch := 0, roll := 0, yaw := 0
    altitude := 10, velocity := 0, emergency_triggered := true }

/- Claim theorems. -/

/-- C1: for every sequence of command/flight/cleanup critical sections
starting from the zeroed initial state, the altitude is never negative;
moreover the flight integration step always yields a non-negative
altitude, and whenever the ground clamp fires (the candidate altitude of
the cycle is negative) the altitude is set to 0 and the velocity is
simultaneously reset to 0. -/
theorem altitude_nonneg_and_ground_clamp :
    (∀ ops : List Op, 0 ≤ (run ops initState).altitude) ∧
    (∀ s : DroneState,
      0 ≤ (flight_critical s).altitude ∧
      (raw_altitude (emergency_zeroed s) < 0 →
        (flight_critical s).altitude = 0 ∧ (flight_critical s).velocity = 0)) := by
  constructor
  · intro ops
    exact run_preserves (fun t => 0 ≤ t.altitude) altitude_nonneg_applyOp ops
      initState (by norm_num [initState])
  · intro s
    refine ⟨flight_critical_altitude_nonneg s, fun h => ?_⟩
    unfold flight_critical integrate
    rw [if_pos h]
    exact ⟨rfl, rfl⟩

/-- C1 witness: from the initial state (zero throttle on the ground) the
candidate altitude of the first flight cycle is negative and the clamp
leaves altitude 0 with velocity 0. -/
theorem altitude_nonneg_and_ground_clamp_witness :
    raw_altitude (emergency_zeroed initState) < 0 ∧
    (flight_critical initState).altitude = 0 ∧
    (flight_critical initState).velocity = 0 := by
  have h : raw_altitude (emergency_zeroed initState) < 0 := by
    norm_num [raw_altitude, raw_velocity, emergency_zeroed, initState,
      tilt_factor, tilt_coeff, gravity, lift_gain, dt]
  exact ⟨h, (altitude_nonneg_and_ground_clamp.2 initState).2 h⟩

/-- C2: each flight cycle advances the absolute deadline by exactly the
fixed 10 ms period, and the deadline-miss counter increments by exactly
one on a cycle whose start time exceeds the new deadline (in particular on
any artificially delayed cycle) and stays unchanged otherwise. -/
theorem deadline_step_accounting :
    ∀ (now : Int) (t : FlightTiming),
      (flight_timing_step now t).next_wake = t.next_wake + flight_period_ms ∧
      (t.next_wake + flight_period_ms < now →
        (flight_timing_step now t).misses = t.misses + 1) ∧
      (¬ t.next_wake + flight_period_ms < now →
        (flight_timing_step now t).misses = t.misses) := by
  intro now t
  refine ⟨rfl, ?_, ?_⟩ <;> intro h <;> simp [flight_timing_step, h]

/-- C2 witness: a cycle whose start time 25 ms lies beyond the deadline
10 ms (a delay of more than one period) records exactly one miss. -/
theorem deadline_step_accounting_witness :
    ((0 : Int) + flight_period_ms < 25) ∧
    (flight_timing_step 25 { next_wake := 0, misses := 0 }).misses = 0 + 1 := by
  have h : ((0 : Int) + flight_period_ms < 25) := by decide
  exact ⟨h, (deadline_step_accounting 25 { next_wake := 0, misses := 0 }).2.1 h⟩

/-- C3 counterexample: nine consecutive UP commands from the initial
throttle 0 yield throttle 90, not exactly 100 as the claim states (each UP
adds 10, so ten commands are needed to reach the cap). -/
theorem nine_ups_counterexample :
    ((handle_command "UP")^[9] initState).throttle = 90 ∧
    ¬ ((handle_command "UP")^[9] initState).throttle = 100 := by
  have h : ((handle_command "UP")^[9] initState).throttle = 90 := by
    simp [handle_command, initState, Function.iterate_succ_apply',
      -Function.iterate_succ]
    norm_num
  exact ⟨h, by rw [h]; norm_num⟩

/-- C3 (amended): the command handler maps each exactly-matching,
case-sensitive token as in the claim and accepts no other token; UP twice
from throttle 0 yields 20; nine consecutive UPs from 0 yield 90 — ten are
needed to reach exactly 100 — and iterated UPs never drive throttle above
100; DOWN from 0 yields 0. -/
theorem command_mapping :
    (∀ (s : DroneState) (cmd : String),
        cmd ∉ command_tokens → handle_command cmd s = s) ∧
    (∀ s : DroneState,
        handle_command "PANIC" s = { s with emergency_triggered := true }) ∧
    (∀ s : DroneState,
        handle_command "UP" s = { s with throttle := min 100 (s.throttle + 10) }) ∧
    (∀ s : DroneState,
        handle_command "DOWN" s = { s with throttle := max 0 (s.throttle - 10) }) ∧
    (∀ s : DroneState, handle_command "FRONT" s = { s with pitch := 15 }) ∧
    (∀ s : DroneState, handle_command "BACK" s = { s with pitch := -15 }) ∧
    (∀ s : DroneState, handle_command "LEFT" s = { s with roll := -15 }) ∧
    (∀ s : DroneState, handle_command "RIGHT" s = { s with roll := 15 }) ∧
    (∀ s : DroneState, handle_command "STOP" s = { s with pitch := 0, roll := 0 }) ∧
    ((handle_command "UP")^[2] initState).throttle = 20 ∧
    ((handle_command "UP")^[9] initState).throttle = 90 ∧
    ((handle_command "UP")^[10] initState).throttle = 100 ∧
    (∀ n : ℕ, ((handle_command "UP")^[n] initState).throttle ≤ 100) ∧
    (handle_command "DOWN" initState).throttle = 0 := by
  refine ⟨?_, ?_, ?_, ?_, ?_, ?_, ?_, ?_, ?_, ?_, ?_, ?_,
    up_iterate_throttle_le, ?_⟩
  · intro s cmd h
    simp [command_tokens] at h
    obtain ⟨h1, h2, h3, h4, h5, h6, h7, h8⟩ := h
    simp [handle_command, h1, h2, h3, h4, h5, h6, h7, h8]
  · intro s; simp [handle_command]
  · intro s; simp [handle_command]
  · intro s; simp [handle_command]
  · intro s; simp [handle_command]
  · intro s; simp [handle_command]
  · intro s; simp [handle_command]
  · intro s; simp [handle_command]
  · intro s; simp [handle_command]
  · simp [handle_command, initState, Function.iterate_succ_apply',
      -Function.iterate_succ]
    norm_num
  · simp [handle_command, initState, Function.iterate_succ_apply',
      -Function.iterate_succ]
    norm_num
  · simp [handle_command, initState, Function.iterate_succ_apply',
      -Function.iterate_succ]
    norm_num
  · simp [handle_command, initState]

/-- C3 witness: HOVER is not a recognized token and leaves the state
unchanged. -/
theorem command_mapping_witness :
    ("HOVER" : String) ∉ command_tokens ∧
    handle_command "HOVER" initState = initState := by
  have h : ("HOVER" : String) ∉ command_tokens := by decide
  exact ⟨h, command_mapping.1 initState "HOVER" h⟩

/-- C4: the emergency flag only ever makes a false-to-true transition
(every critical section preserves a true flag); raising the emergency a
second time is a no-op that leaves the flag true; and along any trace of
process events the shutdown sequence runs at most once, because
termination is absorbing. -/
theorem emergency_flag_monotone :
    (∀ (o : Op) (s : DroneState), s.emergency_triggered = true →
        (applyOp o s).emergency_triggered = true) ∧
    (∀ s : DroneState,
        handle_command "PANIC" (handle_command "PANIC" s) =
          handle_command "PANIC" s ∧
        (handle_command "PANIC" s).emergency_triggered = true) ∧
    (∀ (tr : List ProcEv) (p : ProcState), shutdownRuns tr p ≤ 1) := by
  refine ⟨emergency_mono_applyOp, ?_, shutdownRuns_le_one⟩
  intro s
  constructor
  · simp [handle_command]
  · simp [handle_command]

/-- C4 witness: after a PANIC the flag is true and a flight cycle keeps it
true. -/
theorem emergency_flag_monotone_witness :
    (handle_command "PANIC" initState).emergency_triggered = true ∧
    (applyOp Op.flight (handle_command "PANIC" initState)).emergency_triggered
      = true := by
  have h : (handle_command "PANIC" initState).emergency_triggered = true := by
    simp [handle_command]
  exact ⟨h, emergency_flag_monotone.1 Op.flight _ h⟩

/-- C5 counterexample: with the emergency flag set, the flight cycle does
NOT leave altitude and velocity unchanged — the source has no `else`
around the integration, so the cycle integrates the vertical model with
the zeroed inputs (free fall).  From hover at altitude 10 with velocity 0,
one emergency cycle changes both. -/
theorem emergency_cycle_counterexample :
    hover_emergency_state.emergency_triggered = true ∧
    (flight_critical hover_emergency_state).velocity ≠
      hover_emergency_state.velocity ∧
    (flight_critical hover_emergency_state).altitude ≠
      hover_emergency_state.altitude := by
  refine ⟨rfl, ?_, ?_⟩ <;>
    norm_num [flight_critical, integrate, emergency_zeroed, raw_altitude,
      raw_velocity, tilt_factor, tilt_coeff, gravity, lift_gain, dt,
      hover_emergency_state]

/-- C5 (amended): in each flight cycle, if the emergency flag is set the
cycle zeroes throttle, pitch and roll and then performs the same physics
integration on those zeroed inputs (so altitude and velocity are still
advanced, in free fall); only the control inputs, not the integration, are
gated on the flag.  When the flag is clear the cycle integrates the
unmodified state. -/
theorem flight_emergency_gate :
    ∀ s : DroneState,
      (s.emergency_triggered = true →
        flight_critical s =
          integrate { s with throttle := 0, pitch := 0, roll := 0 } ∧
        (flight_critical s).throttle = 0 ∧
        (flight_critical s).pitch = 0 ∧
        (flight_critical s).roll = 0) ∧
      (s.emergency_triggered = false → flight_critical s = integrate s) := by
  intro s
  constructor
  · intro h
    refine ⟨by rw [flight_critical, emergency_zeroed, if_pos h], ?_, ?_, ?_⟩
    · rw [flight_critical_throttle, if_pos h]
    · rw [flight_critical_pitch, if_pos h]
    · rw [flight_critical_roll, if_pos h]
  · intro h
    rw [flight_critical, emergency_zeroed, if_neg]
    simp [h]

/-- C5 witness: the amended behavior evaluated on the hover state with the
emergency flag raised. -/
theorem flight_emergency_gate_witness :
    hover_emergency_state.emergency_triggered = true ∧
    flight_critical hover_emergency_state =
      integrate { hover_emergency_state with
                  throttle := 0, pitch := 0, roll := 0 } := by
  have h : hover_emergency_state.emergency_triggered = true := rfl
  exact ⟨h, ((flight_emergency_gate hover_emergency_state).1 h).1⟩

/-- C6: one monitor interval leaves the drone state untouched, changes the
stats registry only by zeroing the per-interval rate counters after
reading them (the packet counter in `udp_test_receiver.cpp`; both the
packet and frame counters in `data_collector.cpp`), reports exactly the
pre-reset values, and never holds the stats lock and the state lock at the
same time. -/
theorem monitor_frame_conditions :
    (∀ (st : SystemStats) (ds : DroneState),
        (monitor_cycle st ds).2.1 = ds ∧
        (monitor_cycle st ds).1 = { st with net_packets := 0 } ∧
        (monitor_cycle st ds).2.2 =
          { f_time := st.flight_exec_avg_us
            f_miss := st.flight_deadline_misses
            f_pre := st.flight_preempts, n_pack := st.net_packets
            n_pre := st.net_preempts, v_fps := st.vision_fps
            v_pre := st.vision_preempts, emerg := st.emergency_status
            alt := ds.altitude, thr := ds.throttle }) ∧
    (∀ st : DCStats,
        dc_monitor_cycle st =
          { st with vision_frames := 0, net_packets := 0 }) ∧
    bothEverHeld monitor_lock_seq = false ∧
    bothEverHeld dc_monitor_lock_seq = false := by
  exact ⟨fun st ds => ⟨rfl, rfl, rfl⟩, fun st => rfl, by decide, by decide⟩

/-- C7: the flight-cycle stats update records exactly the rolling average
new_avg = (old_avg + sample) / 2 (C++ long division), increments the loop
counter by one, stores the sampled preemption count, and leaves the
deadline-miss and packet counters alone. -/
theorem rolling_average_update :
    ∀ (st : SystemStats) (dur preempts : Int),
      (flight_stats_update st dur preempts).flight_exec_avg_us =
        (st.flight_exec_avg_us + dur).tdiv 2 ∧
      (flight_stats_update st dur preempts).flight_loops =
        st.flight_loops + 1 ∧
      (flight_stats_update st dur preempts).flight_preempts = preempts ∧
      (flight_stats_update st dur preempts).flight_deadline_misses =
        st.flight_deadline_misses ∧
      (flight_stats_update st dur preempts).net_packets = st.net_packets := by
  intro st dur preempts
  exact ⟨rfl, rfl, rfl, rfl, rfl⟩

/-- C8 counterexample: an iteration of the receive loop that received a
command token still performs the idle sleep — the `sleep_for(10ms)` is
outside the `if (n > 0)` in the source, refuting the claim that the loop
sleeps only on empty polls. -/
theorem sleep_on_data_iteration :
    NetAction.idle_sleep ∈ (networking_iter (some "UP") initState).2 := by
  simp [networking_iter]

/-- C8 (amended): every iteration of the receive loop ends with the short
idle sleep, whether or not the non-blocking poll returned data; an
iteration with a token dispatches it and then still sleeps before polling
again, and an empty iteration leaves the state unchanged. -/
theorem networking_always_sleeps :
    ∀ (poll : Option String) (s : DroneState),
      (networking_iter poll s).2.getLast? = some NetAction.idle_sleep ∧
      (∀ cmd, poll = some cmd →
        (networking_iter poll s).1 = handle_command cmd s) ∧
      (poll = none → (networking_iter poll s).1 = s) := by
  intro poll s
  cases poll with
  | none =>
    refine ⟨rfl, ?_, fun _ => rfl⟩
    intro cmd h
    exact Option.noConfusion h
  | some c =>
    refine ⟨rfl, ?_, ?_⟩
    · intro cmd h
      injection h with h2
      subst h2
      rfl
    · intro h
      exact Option.noConfusion h

/-- C8 witness: the amended behavior evaluated on an iteration that
received the UP token. -/
theorem networking_always_sleeps_witness :
    (networking_iter (some "UP") initState).2.getLast? =
      some NetAction.idle_sleep ∧
    (networking_iter (some "UP") initState).1 =
      handle_command "UP" initState := by
  exact ⟨(networking_always_sleeps (some "UP") initState).1,
         (networking_always_sleeps (some "UP") initState).2.1 "UP" rfl⟩

/-- C9: starting from the initial throttle 0, every state-mutating
critical section — each command handler, the flight cycle (including its
emergency zeroing), and the shutdown motor kill — preserves
throttle ∈ [0, 100], so the bound holds in every reachable state. -/
theorem throttle_range_invariant :
    throttle_ok initState ∧
    (∀ (o : Op) (s : DroneState), throttle_ok s → throttle_ok (applyOp o s)) ∧
    (∀ ops : List Op, throttle_ok (run ops initState)) := by
  have h0 : throttle_ok initState := by
    constructor <;> norm_num [initState, throttle_ok]
  exact ⟨h0, throttle_ok_applyOp,
    fun ops => run_preserves throttle_ok throttle_ok_applyOp ops initState h0⟩

/-- C9 witness: the invariant holds initially and is preserved by an UP
command. -/
theorem throttle_range_invariant_witness :
    throttle_ok initState ∧ throttle_ok (applyOp (Op.net "UP") initState) := by
  have h0 : throttle_ok initState := by
    constructor <;> norm_num [initState, throttle_ok]
  exact ⟨h0, throttle_range_invariant.2.1 (Op.net "UP") initState h0⟩

/-- C10: in every state reachable from the initial state through the
command interface (and the other critical sections), pitch and roll take
only the values -15, 0 or 15, so the unclamped tilt attenuation factor
1 - 0.005 (|pitch| + |roll|) always lies in [0.85, 1] and in particular is
never zero or negative. -/
theorem tilt_factor_reachable_bounds :
    ∀ ops : List Op,
      attitude_ok (run ops initState) ∧
      17 / 20 ≤ tilt_factor (run ops initState) ∧
      tilt_factor (run ops initState) ≤ 1 ∧
      0 < tilt_factor (run ops initState) := by
  intro ops
  have ha : attitude_ok (run ops initState) :=
    run_preserves attitude_ok attitude_ok_applyOp ops initState
      (by exact ⟨Or.inr (Or.inl rfl), Or.inr (Or.inl rfl)⟩)
  obtain ⟨hl, hu⟩ := tilt_factor_of_attitude _ ha
  exact ⟨ha, hl, hu, lt_of_lt_of_le (by norm_num) hl⟩
